import Mathlib

/-!
Verification of the COM-thread execution and serialization bridge of the
`ppt-mcp` repository (`src/utils/com_wrapper.py`).

The development shallowly embeds the Python module:

* the worker retry loop `PowerPointCOMWrapper._com_worker` (the
  `for attempt in range(_RETRY_MAX)` body) becomes `com_worker_item_from`,
  which returns the value stored in the item's future together with an
  event trace (invocations, dialog dismissals, sleeps, future resolution);
* the worker `while` loop becomes `com_worker`, a fold over the queue
  contents taken in FIFO enqueue order (Python's `queue.Queue` is a
  thread-safe FIFO channel, so concurrent `put` calls serialize into a
  single enqueue order; the model takes that order as input);
* `PowerPointCOMWrapper.execute` becomes `execute`, which enqueues
  unconditionally and then models `Future.result(timeout=30.0)`;
* the handle manager `_connect_impl` / `_get_app_impl` / `_get_pres_impl` /
  `_set_target_pres_impl` become `connect_impl`, `get_app_impl`,
  `get_pres_impl`, `set_target_pres_impl` over an explicit COM environment
  (`ComEnv`) and wrapper state (`CWState`).

Python exceptions are values of `PyExc` (for the worker loop) or `MgrError`
(for the handle manager; each constructor carries the data interpolated
into the corresponding Python message, so "the error names the valid
range" is expressed by the payload of the constructor).
-/

/-- Python exception as seen by the worker loop: either a
`pywintypes.com_error` carrying an HRESULT and a message, or any other
exception carrying its type name and message. -/
inductive PyExc where
  | comError (hresult : Int) (msg : String)
  | otherExc (excType : String) (msg : String)
deriving DecidableEq, Repr

/-- Constant `_BUSY_HRESULTS = frozenset((-2147418111, -2147417846))`. -/
def BUSY_HRESULTS : List Int := [-2147418111, -2147417846]

/-- Constant `_RETRY_MAX = 5` (total number of attempts made by the worker loop). -/
def RETRY_MAX : Nat := 5

/-- Constant `_RETRY_INTERVAL = 3` (seconds slept between attempts). -/
def RETRY_INTERVAL : Nat := 3

/-- Constant `timeout=30.0` passed to `Future.result` in `execute` (seconds). -/
def TIMEOUT_SECONDS : Nat := 30

/-- The test `isinstance(e, pywintypes.com_error) and e.hresult in
_BUSY_HRESULTS`: whether an exception is one of the two transient-busy
COM errors. -/
def isBusy : PyExc → Bool
  | .comError h _ => BUSY_HRESULTS.contains h
  | .otherExc _ _ => false

/-- A unit of work, characterized by its behaviour on each invocation:
`w n` is what `func(*args, **kwargs)` does the `n`-th time the worker
invokes it (counting from 0): return a value or raise an exception. -/
def Work (α : Type) : Type := Nat → Except PyExc α

/-- Observable events of the worker thread while processing items.
`invoke i a` is the call `func(*args, **kwargs)` for item `i` at attempt
`a`; `dismiss i a` is the `_try_dismiss_ppt_dialog()` side-channel call;
`sleep i s` is `time.sleep(s)`; `setResult` / `setExc` resolve the
item's future. -/
inductive WEvent where
  | invoke (item attempt : Nat)
  | dismiss (item attempt : Nat)
  | sleep (item secs : Nat)
  | setResult (item : Nat)
  | setExc (item : Nat)
deriving DecidableEq, Repr

/-- The item a worker event belongs to. -/
def eventItem : WEvent → Nat
  | .invoke i _ => i
  | .dismiss i _ => i
  | .sleep i _ => i
  | .setResult i => i
  | .setExc i => i

/-- Outcome of processing one queue item: the value stored in its future
(`none` when the future was never resolved) and the trace of events. -/
structure ItemRun (α : Type) where
  res : Option (Except PyExc α)
  trace : List WEvent

/-- The body of `for attempt in range(_RETRY_MAX)` in `_com_worker`,
processing item `item` whose unit of work is `w`, starting at attempt
number `attempt` with `fuel` loop iterations remaining.  Mirrors the
source: success resolves the future and breaks; a `com_error` whose
HRESULT is transient-busy retries while `attempt < _RETRY_MAX - 1`,
dismissing the dialog on the very first failure and sleeping
`_RETRY_INTERVAL` seconds; any other exception (or exhausted budget)
resolves the future with the exception and breaks. -/
def com_worker_item_from (item : Nat) (w : Work α) (attempt : Nat) : Nat → ItemRun α
  | 0 => ⟨none, []⟩
  | fuel + 1 =>
    match w attempt with
    | .ok v => ⟨some (.ok v), [.invoke item attempt, .setResult item]⟩
    | .error (.comError h m) =>
      if isBusy (.comError h m) = true ∧ attempt < RETRY_MAX - 1 then
        let rest := com_worker_item_from item w (attempt + 1) fuel
        ⟨rest.res,
          .invoke item attempt ::
            ((if attempt = 0 then [.dismiss item attempt] else []) ++
              .sleep item RETRY_INTERVAL :: rest.trace)⟩
      else
        ⟨some (.error (.comError h m)), [.invoke item attempt, .setExc item]⟩
    | .error (.otherExc t m) =>
      ⟨some (.error (.otherExc t m)), [.invoke item attempt, .setExc item]⟩

/-- Processing of one dequeued item by `_com_worker`: the full retry loop
from attempt 0 with `_RETRY_MAX` iterations available. -/
def com_worker_item (item : Nat) (w : Work α) : ItemRun α :=
  com_worker_item_from item w 0 RETRY_MAX

/-- The `while self._running` loop of `_com_worker`, run over the queue
contents in FIFO enqueue order.  `none` is the shutdown sentinel enqueued
by `stop()`: the worker breaks out of the loop without touching later
items.  An empty list means the worker blocks on `self._queue.get()`
producing no further events.  `self._running` stays true for the whole
modelled run (`stop()` flips it only together with enqueueing the
sentinel). -/
def com_worker (queue : List (Option (Nat × Work α))) : List WEvent :=
  match queue with
  | [] => []
  | none :: _ => []
  | some (item, w) :: rest => (com_worker_item item w).trace ++ com_worker rest

/-- Number of `invoke` events in a trace (how many times `func` ran). -/
def invocationsOf (t : List WEvent) : Nat :=
  (t.filter fun e => match e with | .invoke _ _ => true | _ => false).length

/-- The sleep durations of a trace, in order (seconds). -/
def sleepsOf (t : List WEvent) : List Nat :=
  t.filterMap fun e => match e with | .sleep _ s => some s | _ => none

/-- The attempt numbers at which the dialog-dismissal side-channel ran,
in order. -/
def dismissalsOf (t : List WEvent) : List Nat :=
  t.filterMap fun e => match e with | .dismiss _ a => some a | _ => none

/-- What `execute`'s call to `Future.result(timeout=30.0)` does in the
calling thread: return the value, re-raise the stored exception, or —
when nobody ever resolves the future — raise
`concurrent.futures.TimeoutError` after blocking the stated number of
seconds. -/
inductive ExecOutcome (α : Type) where
  | ok (v : α)
  | raised (e : PyExc)
  | timeoutAfter (secs : Nat)

/-- Model of `Future.result(timeout=TIMEOUT_SECONDS)` on a future whose resolution
is `resolved` (`none` = never resolved). -/
def future_result (resolved : Option (Except PyExc α)) : ExecOutcome α :=
  match resolved with
  | some (.ok v) => .ok v
  | some (.error e) => .raised e
  | none => .timeoutAfter TIMEOUT_SECONDS

/-- Model of `PowerPointCOMWrapper.execute` for a single call: it unconditionally
enqueues `(func, args, kwargs, future)` — the source contains no check of
`self._running` — and then blocks on the future.  When the worker thread
is running it drains the queue, eventually processes this item, and the
future resolves with the retry loop's outcome; when it is not running the
future is never resolved, the caller times out after the full
`TIMEOUT_SECONDS`, and the enqueued item stays on the queue. -/
def execute (running : Bool) (queue : List (Nat × Work α)) (item : Nat)
    (w : Work α) : ExecOutcome α × List (Option (Nat × Work α)) :=
  let q := queue.map some ++ [some (item, w)]
  if running then
    (future_result (com_worker_item item w).res, [])
  else
    (future_result none, q)

/-- An open presentation's identifying properties: `Name` (short file
name) and `FullName` (full path, used by the wrapper as the stable
session-target identity). -/
structure Pres where
  name : String
  fullName : String
deriving DecidableEq, Repr

/-- Observable state of a `PowerPoint.Application` COM object as used by
the wrapper: its `Visible` property, the ordered collection
`Presentations` (1-based in COM, position `i` is list index `i - 1`), and
`ActivePresentation` (`none` when accessing it would raise). -/
structure AppObj where
  visible : Bool
  presentations : List Pres
  active : Option Pres
deriving DecidableEq, Repr

/-- The `PowerPointCOMWrapper` fields the handle manager reads and
writes: `self._app` (paired with whether the cached COM reference is
still live, i.e. whether the probe `self._app.Name` succeeds) and
`self._target_pres_full_name`. -/
structure CWState where
  app : Option (AppObj × Bool)
  target : Option String
deriving DecidableEq, Repr

/-- The COM environment `_connect_impl` runs against: the running
PowerPoint instance `GetActiveObject("PowerPoint.Application")` would
return (`none` when none is registered), whether
`Dispatch("PowerPoint.Application")` can launch a new instance
(PowerPoint installed), the state of such a freshly launched instance,
and the `strerror` of the dispatch failure otherwise. -/
structure ComEnv where
  existing : Option AppObj
  dispatchOk : Bool
  newApp : AppObj
  dispatchErr : String
deriving DecidableEq, Repr

/-- Exceptions raised by the handle-manager methods.  Each constructor
carries exactly the data interpolated into the Python message it models:

* `connectionError` — `ConnectionError(f"Failed to connect to PowerPoint.
  Is it installed? Error: {e.strerror}")`;
* `comError` — a `pywintypes.com_error` propagating out of a COM property
  access (e.g. `app.ActivePresentation` with nothing open);
* `noPresentation` — `RuntimeError("No presentation is open in
  PowerPoint.")`;
* `indexOutOfRange idx count` — `ValueError(f"Presentation index {idx}
  out of range (1-{count})")`: the message names the valid range `1` to
  `count`;
* `notFound q openNames` — `ValueError(f"Presentation '{q}' not found.
  Open presentations: {open_names}")`: the message lists the `Name` of
  every open presentation;
* `ambiguous q matchNames` — `ValueError(f"Multiple presentations match
  '{q}': {names}. Use a more specific name.")`. -/
inductive MgrError where
  | connectionError (strerror : String)
  | comError (what : String)
  | noPresentation
  | indexOutOfRange (idx : Int) (count : Nat)
  | notFound (query : String) (openNames : List String)
  | ambiguous (query : String) (matchNames : List String)
deriving DecidableEq, Repr

deriving instance DecidableEq for Except

/-- Which branch of `_connect_impl` produced the returned handle: the
cached `self._app`, an attach via `GetActiveObject`, or a brand-new
instance launched via `Dispatch`. -/
inductive ConnectSource where
  | cached
  | attached
  | launched
deriving DecidableEq, Repr

/-- Result of `_connect_impl` / `_get_app_impl`: the returned application
object (post-mutation) tagged with its provenance, the wrapper state
afterwards, and `visWrites` — the sequence of values assigned to
`app.Visible`, in order (empty when the code never touched the `Visible`
property). -/
structure ConnectOut where
  res : Except MgrError (AppObj × ConnectSource)
  st : CWState
  visWrites : List Bool
deriving DecidableEq, Repr

/-- The tail of `_connect_impl` after `self._app` has been (re)obtained
from `GetActiveObject` or `Dispatch`: `if visible is not None:
self._app.Visible = visible; elif not self._app.Visible:
self._app.Visible = True`. -/
def connect_finish (st : CWState) (a : AppObj) (src : ConnectSource)
    (visible : Option Bool) : ConnectOut :=
  match visible with
  | some v =>
    let a2 := { a with visible := v }
    ⟨.ok (a2, src), { st with app := some (a2, true) }, [v]⟩
  | none =>
    if a.visible then
      ⟨.ok (a, src), { st with app := some (a, true) }, []⟩
    else
      let a2 := { a with visible := true }
      ⟨.ok (a2, src), { st with app := some (a2, true) }, [true]⟩

/-- The reconnection part of `_connect_impl`: try
`GetActiveObject("PowerPoint.Application")` (attach to the running
instance); on `com_error` fall back to `Dispatch` (launch new); if that
also fails raise `ConnectionError`.  Expects `st.app = none` (the caller
cleared it). -/
def connect_fresh (env : ComEnv) (st : CWState) (visible : Option Bool) :
    ConnectOut :=
  match env.existing with
  | some a0 => connect_finish st a0 .attached visible
  | none =>
    if env.dispatchOk then
      connect_finish st env.newApp .launched visible
    else
      ⟨.error (.connectionError env.dispatchErr), st, []⟩

/-- Model of `PowerPointCOMWrapper._connect_impl(visible)`.  With a cached handle
whose liveness probe `self._app.Name` succeeds, it returns it, first
assigning `Visible` when `visible is not None`; a failed probe clears
`self._app` and falls through to the fresh-connect path. -/
def connect_impl (env : ComEnv) (st : CWState) (visible : Option Bool) :
    ConnectOut :=
  match st.app with
  | some (a, true) =>
    match visible with
    | some v =>
      let a2 := { a with visible := v }
      ⟨.ok (a2, .cached), { st with app := some (a2, true) }, [v]⟩
    | none => ⟨.ok (a, .cached), st, []⟩
  | some (_, false) => connect_fresh env { st with app := none } visible
  | none => connect_fresh env { st with app := none } visible

/-- Model of `PowerPointCOMWrapper._get_app_impl()`: return the cached handle when
its probe succeeds; otherwise clear it and call `_connect_impl()` with
its default `visible=None`. -/
def get_app_impl (env : ComEnv) (st : CWState) : ConnectOut :=
  match st.app with
  | none => connect_impl env st none
  | some (a, true) => ⟨.ok (a, .cached), st, []⟩
  | some (_, false) => connect_impl env { st with app := none } none

/-- The application object a fresh connect ends up holding (before any
visibility mutation): the running instance when one exists, else the
freshly dispatched one, and `none` when dispatch fails. -/
def obtained_app (env : ComEnv) : Option AppObj :=
  match env.existing with
  | some a => some a
  | none => if env.dispatchOk then some env.newApp else none

/-- Result of `_get_pres_impl`: the returned presentation or the raised
exception, the wrapper state afterwards, and whether the stale-target
warning (`"Target presentation '%s' is no longer open; falling back to
ActivePresentation"`) was logged. -/
structure PresOut where
  res : Except MgrError Pres
  st : CWState
  warned : Bool
deriving DecidableEq, Repr

/-- Model of `app.ActivePresentation`: raises a `com_error` when there is no
active presentation. -/
def activePresentation (a : AppObj) : Except MgrError Pres :=
  match a.active with
  | some p => .ok p
  | none => .error (.comError "ActivePresentation")

/-- Model of `PowerPointCOMWrapper._get_pres_impl()`.  After `_get_app_impl`, if a
session target is pinned (`if self._target_pres_full_name:` — Python
truthiness, so an empty string behaves like no pin), scan
`app.Presentations` for the first presentation whose `FullName` equals
the pin and return it (its window activation is best-effort with every
error swallowed, hence not part of the modelled state); when no
presentation matches, log the warning, clear the pin and fall back to
`app.ActivePresentation`. -/
def get_pres_impl (env : ComEnv) (st : CWState) : PresOut :=
  match get_app_impl env st with
  | ⟨.error e, st1, _⟩ => ⟨.error e, st1, false⟩
  | ⟨.ok (a, _), st1, _⟩ =>
    match st1.target with
    | some t =>
      if t.isEmpty then
        ⟨activePresentation a, st1, false⟩
      else
        match a.presentations.find? (fun p => p.fullName == t) with
        | some p => ⟨.ok p, st1, false⟩
        | none =>
          ⟨activePresentation a, { st1 with target := none }, true⟩
    | none => ⟨activePresentation a, st1, false⟩

/-- The dict returned by `_set_target_pres_impl`: `{"success": True,
"name": ..., "full_name": ..., "index": ...}` where `index` is the
1-based position of the first open presentation sharing the pinned
`FullName` (`none` only if the scan finds no match). -/
structure SetTargetInfo where
  success : Bool
  name : String
  full_name : String
  index : Option Nat
deriving DecidableEq, Repr

/-- Result of `_set_target_pres_impl`: the returned dict or the raised
exception, plus the wrapper state afterwards. -/
structure SetOut where
  res : Except MgrError SetTargetInfo
  st : CWState
deriving DecidableEq, Repr

/-- The tail of `_set_target_pres_impl` once the presentation `p` has
been selected: best-effort window activation (logged, never fatal, not
part of the modelled state), `self._target_pres_full_name = pres.FullName`,
and the scan computing the returned 1-based index. -/
def pin_target (a : AppObj) (st : CWState) (p : Pres) : SetOut :=
  let index := (a.presentations.findIdx? fun q => q.fullName == p.fullName).map (· + 1)
  ⟨.ok ⟨true, p.name, p.fullName, index⟩, { st with target := some p.fullName }⟩

/-- The local `matches` list of `_set_target_pres_impl`: `name_lower =
name_or_index.lower()` is compared against both `p.Name.lower()` and
`p.FullName.lower()` for every open presentation. -/
def name_matches (ps : List Pres) (nm : String) : List Pres :=
  ps.filter fun p =>
    p.name.toLower == nm.toLower || p.fullName.toLower == nm.toLower

/-- Model of `PowerPointCOMWrapper._set_target_pres_impl(name_or_index)`.  After
`_get_app_impl`: raise `RuntimeError` when no presentation is open; an
`int` argument is a 1-based position, range-checked against
`app.Presentations.Count` with `ValueError` naming the valid range; a
string argument is matched case-insensitively via `name_matches` — zero
matches raise `ValueError` listing the open presentation names, several
matches raise `ValueError` asking for a more specific name. -/
def set_target_pres_impl (env : ComEnv) (st : CWState)
    (name_or_index : Int ⊕ String) : SetOut :=
  match get_app_impl env st with
  | ⟨.error e, st1, _⟩ => ⟨.error e, st1⟩
  | ⟨.ok (a, _), st1, _⟩ =>
    if a.presentations.length = 0 then
      ⟨.error .noPresentation, st1⟩
    else
      match name_or_index with
      | .inl idx =>
        if idx < 1 ∨ idx > (a.presentations.length : Int) then
          ⟨.error (.indexOutOfRange idx a.presentations.length), st1⟩
        else
          pin_target a st1 (a.presentations.getD (idx.toNat - 1) ⟨"", ""⟩)
      | .inr nm =>
        let ms := name_matches a.presentations nm
        if ms.length = 0 then
          ⟨.error (.notFound nm (a.presentations.map fun p => p.name)), st1⟩
        else if ms.length > 1 then
          ⟨.error (.ambiguous nm (ms.map fun p => p.name)), st1⟩
        else
          pin_target a st1 (ms.getD 0 ⟨"", ""⟩)

/-- Sample open presentation used in concrete instantiations. -/
def presA : Pres := ⟨"Budget.pptx", "C:\\docs\\Budget.pptx"⟩

/-- Second sample open presentation. -/
def presB : Pres := ⟨"Plan.pptx", "C:\\docs\\Plan.pptx"⟩

/-- Third sample open presentation. -/
def presC : Pres := ⟨"Notes.pptx", "C:\\docs\\Notes.pptx"⟩

/-- An application instance with no presentations, as a fresh `Dispatch`
would produce it (launched hidden). -/
def appEmpty : AppObj := ⟨false, [], none⟩

/-- A pre-existing, running PowerPoint instance that is hidden
(`Visible` is false), e.g. one the user hid or one launched earlier by
automation without showing a window. -/
def appHiddenRunning : AppObj := ⟨false, [presA], some presA⟩

/-- Environment in which `GetActiveObject` finds `appHiddenRunning` and
`Dispatch` would also work. -/
def envAttachHidden : ComEnv := ⟨some appHiddenRunning, true, appEmpty, ""⟩

/-- Wrapper state with no cached handle and no pinned target (a fresh
wrapper before any connect). -/
def stFresh : CWState := ⟨none, none⟩

/-- Wrapper state holding a cached handle whose liveness probe raises
(stale COM reference) and no pinned target. -/
def stStale : CWState := ⟨some (⟨true, [presA], some presA⟩, false), none⟩

/-- A live, visible application with one presentation open. -/
def appOneOpen : AppObj := ⟨true, [presA], some presA⟩

/-- Wrapper state with a live cached handle on `appOneOpen` and a pinned
target whose document has since been closed (no open presentation has
that full name). -/
def stStalePin : CWState := ⟨some (appOneOpen, true), some "C:\\docs\\gone.pptx"⟩

/-- A live, visible application with two presentations open. -/
def appTwoOpen : AppObj := ⟨true, [presA, presB], some presA⟩

/-- Wrapper state with a live cached handle on `appTwoOpen`. -/
def stTwoOpen : CWState := ⟨some (appTwoOpen, true), none⟩

/-- A live, visible application with three presentations open. -/
def appThreeOpen : AppObj := ⟨true, [presA, presB, presC], some presA⟩

/-- Wrapper state with a live cached handle on `appThreeOpen`. -/
def stThreeOpen : CWState := ⟨some (appThreeOpen, true), none⟩

theorem com_worker_item_from_mem_item {α : Type} (item : Nat) (w : Work α) :
    ∀ attempt fuel, ∀ e ∈ (com_worker_item_from item w attempt fuel).trace,
      eventItem e = item := by
  intro attempt fuel
  induction fuel generalizing attempt with
  | zero => intro e he; simp [com_worker_item_from] at he
  | succ n ih =>
    intro e he
    rcases hw : w attempt with (⟨h, m⟩ | ⟨t, m⟩) | v <;>
      simp only [com_worker_item_from, hw] at he
    · by_cases hc : isBusy (PyExc.comError h m) = true ∧ attempt < RETRY_MAX - 1
      · rw [if_pos hc] at he
        simp only [List.mem_cons] at he
        rcases he with rfl | he
        · rfl
        · rw [List.mem_append] at he
          rcases he with he | he
          · rcases Nat.eq_zero_or_pos attempt with h0 | h0
            · rw [if_pos h0] at he
              simp only [List.mem_singleton] at he
              subst he; rfl
            · rw [if_neg (by omega)] at he
              simp at he
          · simp only [List.mem_cons] at he
            rcases he with rfl | he
            · rfl
            · exact ih (attempt + 1) e he
      · rw [if_neg hc] at he
        simp only [List.mem_cons, List.mem_singleton, List.not_mem_nil, or_false] at he
        rcases he with rfl | rfl <;> rfl
    · simp only [List.mem_cons, List.mem_singleton, List.not_mem_nil, or_false] at he
      rcases he with rfl | rfl <;> rfl
    · simp only [List.mem_cons, List.mem_singleton, List.not_mem_nil, or_false] at he
      rcases he with rfl | rfl <;> rfl

theorem com_worker_item_from_head {α : Type} (item : Nat) (w : Work α)
    (attempt fuel : Nat) (hf : 0 < fuel) :
    ((com_worker_item_from item w attempt fuel).trace).head? =
      some (.invoke item attempt) := by
  rcases fuel with _ | n
  · omega
  · rcases hw : w attempt with (⟨h, m⟩ | ⟨t, m⟩) | v <;>
      simp only [com_worker_item_from, hw]
    · by_cases hc : isBusy (PyExc.comError h m) = true ∧ attempt < RETRY_MAX - 1
      · rw [if_pos hc]; rfl
      · rw [if_neg hc]; rfl
    · rfl
    · rfl

theorem com_worker_map_some {α : Type} (items : List (Nat × Work α)) :
    com_worker (items.map some) =
      (items.map fun it => (com_worker_item it.1 it.2).trace).flatten := by
  induction items with
  | nil => rfl
  | cons it rest ih => simp [com_worker, ih]

/-- Claim C2: a unit of work that raises a transient-busy COM error
(hresult -2147418111 or -2147417846) on every invocation is invoked
exactly 5 times total (1 initial attempt + 4 retries) by the worker,
with a 3-second sleep between consecutive attempts (4 sleeps of
`_RETRY_INTERVAL = 3` seconds), after which `execute()` raises that
transient-busy error to the caller. -/
theorem busy_exhaustion_five_attempts {α : Type} (h : Int) (msg : String)
    (hb : h = -2147418111 ∨ h = -2147417846) :
    invocationsOf (com_worker_item 0
        ((fun _ => .error (.comError h msg)) : Work α)).trace = 5 ∧
    sleepsOf (com_worker_item 0
        ((fun _ => .error (.comError h msg)) : Work α)).trace =
      List.replicate 4 RETRY_INTERVAL ∧
    RETRY_INTERVAL = 3 ∧
    (execute true [] 0 ((fun _ => .error (.comError h msg)) : Work α)).1 =
      .raised (.comError h msg) := by
  rcases hb with rfl | rfl <;> exact ⟨rfl, rfl, rfl, rfl⟩

theorem busy_exhaustion_five_attempts_witness :
    invocationsOf (com_worker_item 0
        ((fun _ => .error (.comError (-2147418111) "busy")) : Work Nat)).trace = 5 ∧
    sleepsOf (com_worker_item 0
        ((fun _ => .error (.comError (-2147418111) "busy")) : Work Nat)).trace =
      List.replicate 4 RETRY_INTERVAL ∧
    RETRY_INTERVAL = 3 ∧
    (execute true [] 0 ((fun _ => .error (.comError (-2147418111) "busy")) : Work Nat)).1 =
      .raised (.comError (-2147418111) "busy") :=
  busy_exhaustion_five_attempts (-2147418111) "busy" (Or.inl rfl)

/-- Claim C3: a unit of work that raises the transient-busy error on its
first K invocations (1 ≤ K < 4) and then succeeds makes `execute()`
return the success value, and the dialog-dismissal side-channel runs
exactly once, at attempt 0 — the first failure. -/
theorem busy_then_success_dismiss_once {α : Type} (v : α) (h : Int) (msg : String)
    (K : Nat) (hb : h = -2147418111 ∨ h = -2147417846) (h1 : 1 ≤ K) (h4 : K < 4) :
    (execute true [] 0
        ((fun n => if n < K then .error (.comError h msg) else .ok v) : Work α)).1 =
      .ok v ∧
    dismissalsOf (com_worker_item 0
        ((fun n => if n < K then .error (.comError h msg) else .ok v) : Work α)).trace =
      [0] := by
  interval_cases K <;> rcases hb with rfl | rfl <;> exact ⟨rfl, rfl⟩

theorem busy_then_success_dismiss_once_witness :
    (execute true [] 0
        ((fun n => if n < 2 then .error (.comError (-2147417846) "busy") else .ok 37) : Work Nat)).1 =
      .ok 37 ∧
    dismissalsOf (com_worker_item 0
        ((fun n => if n < 2 then .error (.comError (-2147417846) "busy") else .ok 37) : Work Nat)).trace =
      [0] :=
  busy_then_success_dismiss_once 37 (-2147417846) "busy" 2 (Or.inr rfl)
    (by decide) (by decide)

/-- Claim C4: a unit of work that raises an exception not recognized as
transient-busy is invoked once with no retry and no sleep, the worker
loop does not crash (it goes on to process the rest of the queue), and
`execute()` re-raises that exact exception value (same type and message)
in the calling thread. -/
theorem nontransient_propagates_verbatim {α : Type} (e : PyExc)
    (he : isBusy e = false) (item : Nat) (rest : List (Option (Nat × Work α))) :
    (com_worker_item item ((fun _ => .error e) : Work α)).trace =
      [.invoke item 0, .setExc item] ∧
    (com_worker_item item ((fun _ => .error e) : Work α)).res = some (.error e) ∧
    com_worker (some (item, ((fun _ => Except.error e) : Work α)) :: rest) =
      [.invoke item 0, .setExc item] ++ com_worker rest ∧
    (execute true [] item ((fun _ => .error e) : Work α)).1 = .raised e := by
  cases e with
  | comError h m =>
    refine ⟨?_, ?_, ?_, ?_⟩ <;>
      simp [com_worker, com_worker_item, com_worker_item_from, execute,
        future_result, he]
  | otherExc t m =>
    refine ⟨rfl, rfl, ?_, rfl⟩
    simp [com_worker, com_worker_item, com_worker_item_from]

theorem nontransient_propagates_verbatim_witness :
    (com_worker_item 7 ((fun _ => .error (.otherExc "ValueError" "boom")) : Work Nat)).trace =
      [.invoke 7 0, .setExc 7] ∧
    (com_worker_item 7 ((fun _ => .error (.otherExc "ValueError" "boom")) : Work Nat)).res =
      some (.error (.otherExc "ValueError" "boom")) ∧
    com_worker (some (7, ((fun _ => Except.error (.otherExc "ValueError" "boom")) : Work Nat)) :: []) =
      [.invoke 7 0, .setExc 7] ++ com_worker ([] : List (Option (Nat × Work Nat))) ∧
    (execute true [] 7 ((fun _ => .error (.otherExc "ValueError" "boom")) : Work Nat)).1 =
      .raised (.otherExc "ValueError" "boom") :=
  nontransient_propagates_verbatim (.otherExc "ValueError" "boom") rfl 7 []

/-- Claim C10: when the worker thread is not running, `execute()` still
enqueues the item (the source has no check of the running flag), blocks
the caller until the full 30-second timeout elapses and then raises the
timeout error — it never fails fast with a not-running error — and the
enqueued item remains on the queue. -/
theorem execute_not_running_times_out {α : Type} (queue : List (Nat × Work α))
    (item : Nat) (w : Work α) :
    execute false queue item w =
      (.timeoutAfter TIMEOUT_SECONDS, queue.map some ++ [some (item, w)]) ∧
    TIMEOUT_SECONDS = 30 :=
  ⟨rfl, rfl⟩

/-- Claim C1: the enqueued units of work are run by the single worker
thread strictly in enqueue (FIFO) order, and no two units of work ever
run concurrently.  For every queue contents (the serialization of the
concurrent `execute()` enqueues, in enqueue order), the worker trace
decomposes into contiguous blocks, one per enqueued item, in exactly the
enqueue order: every event of block `i` belongs to item `i`, and each
block starts by invoking its item at attempt 0 — so the whole processing
of an item (all its invocations, sleeps and future resolution) finishes
before the next item is touched, and no two items interleave. -/
theorem com_worker_fifo_serialization {α : Type} (items : List (Nat × Work α)) :
    ∃ blocks : List (List WEvent),
      com_worker (items.map some) = blocks.flatten ∧
      blocks.length = items.length ∧
      ∀ pr ∈ blocks.zip items,
        pr.1.head? = some (.invoke pr.2.1 0) ∧
        ∀ e ∈ pr.1, eventItem e = pr.2.1 := by
  refine ⟨items.map fun it => (com_worker_item it.1 it.2).trace,
    com_worker_map_some items, by simp, ?_⟩
  intro pr hpr
  induction items with
  | nil => simp at hpr
  | cons it rest ih =>
    simp only [List.map_cons, List.zip_cons_cons, List.mem_cons] at hpr
    rcases hpr with rfl | hpr
    · exact ⟨com_worker_item_from_head it.1 it.2 0 RETRY_MAX (by decide),
        fun e he => com_worker_item_from_mem_item it.1 it.2 0 RETRY_MAX e he⟩
    · exact ih hpr

/-- Claim C5 (code defect witnessed): on a fresh connect with
`visible=None`, when `GetActiveObject` attaches to an already-running
instance whose `Visible` is false, `_connect_impl` nevertheless assigns
`Visible = True` to that attached instance — the `elif not
self._app.Visible` default ignores whether the handle was attached or
launched, contradicting the source comment "Default: make visible if
launching new" and the specified behaviour. -/
theorem connect_attach_hidden_forces_visible :
    (connect_impl envAttachHidden stFresh none).res =
      .ok ({ appHiddenRunning with visible := true }, .attached) ∧
    (connect_impl envAttachHidden stFresh none).visWrites = [true] :=
  ⟨rfl, rfl⟩

/-- Claim C6 (counterexample): `get_app` can change the application's
`Visible` property.  With a stale cached handle, `_get_app_impl`
reconnects via `_connect_impl()` with its default `visible=None`, and
when the reconnected instance is not visible that path assigns
`Visible = True` — here the write list is `[true]`, not empty. -/
theorem get_app_changes_visibility_cex :
    (get_app_impl envAttachHidden stStale).visWrites = [true] ∧
    (get_app_impl envAttachHidden stStale).visWrites ≠ [] :=
  ⟨rfl, by decide⟩

/-- Claim C6 (amended): `get_app` performs no `Visible` write when the
cached handle is alive; when the handle is absent or stale it reconnects
with no visibility requested, which writes `Visible = True` exactly when
the obtained instance (running instance if any, else a freshly launched
one) is not visible, and writes nothing when the connection fails. -/
theorem get_app_visibility_writes (env : ComEnv) (st : CWState) :
    (get_app_impl env st).visWrites =
      match st.app with
      | some (_, true) => []
      | _ =>
        match obtained_app env with
        | some b => if b.visible then [] else [true]
        | none => [] := by
  rcases st with ⟨app, tgt⟩
  rcases env with ⟨ex, dok, na, derr⟩
  rcases app with _ | ⟨a, alive⟩
  · rcases ex with _ | a0
    · cases dok <;>
        simp only [get_app_impl, connect_impl, connect_fresh, connect_finish,
          obtained_app] <;>
        by_cases hv : na.visible <;>
        simp [hv]
    · simp only [get_app_impl, connect_impl, connect_fresh, connect_finish,
        obtained_app]
      by_cases hv : a0.visible <;> simp [hv]
  · cases alive
    · rcases ex with _ | a0
      · cases dok <;>
          simp only [get_app_impl, connect_impl, connect_fresh, connect_finish,
            obtained_app] <;>
          by_cases hv : na.visible <;>
          simp [hv]
      · simp only [get_app_impl, connect_impl, connect_fresh, connect_finish,
          obtained_app]
        by_cases hv : a0.visible <;> simp [hv]
    · simp [get_app_impl]

/-- Claim C7: with a pinned session target whose document is no longer
among the open presentations, `_get_pres_impl` does not raise: it logs
the stale-target warning, clears the pinned identity and returns the
current `ActivePresentation`; and a subsequent resolution goes straight
to the default (no scan, no warning, pin still cleared). -/
theorem stale_pin_falls_back (env : ComEnv) (a : AppObj) (tgt : String)
    (ap : Pres) (hne : tgt.isEmpty = false)
    (hmiss : ∀ p ∈ a.presentations, p.fullName ≠ tgt)
    (hact : a.active = some ap) :
    get_pres_impl env ⟨some (a, true), some tgt⟩ =
      ⟨.ok ap, ⟨some (a, true), none⟩, true⟩ ∧
    get_pres_impl env ⟨some (a, true), none⟩ =
      ⟨.ok ap, ⟨some (a, true), none⟩, false⟩ := by
  have hfind : a.presentations.find? (fun p => p.fullName == tgt) = none := by
    rw [List.find?_eq_none]
    intro p hp
    simpa using hmiss p hp
  constructor
  · simp [get_pres_impl, get_app_impl, hne, hfind, activePresentation, hact]
  · simp [get_pres_impl, get_app_impl, activePresentation, hact]

theorem stale_pin_falls_back_witness :
    get_pres_impl envAttachHidden stStalePin =
      ⟨.ok presA, ⟨some (appOneOpen, true), none⟩, true⟩ ∧
    get_pres_impl envAttachHidden ⟨some (appOneOpen, true), none⟩ =
      ⟨.ok presA, ⟨some (appOneOpen, true), none⟩, false⟩ :=
  stale_pin_falls_back envAttachHidden appOneOpen "C:\\docs\\gone.pptx" presA
    rfl (by decide) rfl

/-- Claim C8: pinning by name matches case-insensitively against both
the short name and the full path of every open presentation
(`name_matches` selects exactly the presentations whose lowercased
`Name` or `FullName` equals the lowercased query); zero matches raise
the error listing the names of all open presentations, and two or more
matches raise the ambiguity error (naming the matches, not picking
one). -/
theorem pin_by_name_case_insensitive_errors (env : ComEnv)
    (tgt0 : Option String) (a : AppObj) (q : String)
    (hne : a.presentations ≠ []) :
    (∀ p ∈ a.presentations,
        p ∈ name_matches a.presentations q ↔
          (p.name.toLower = q.toLower ∨ p.fullName.toLower = q.toLower)) ∧
    (name_matches a.presentations q = [] →
      (set_target_pres_impl env ⟨some (a, true), tgt0⟩ (.inr q)).res =
        .error (.notFound q (a.presentations.map fun p => p.name))) ∧
    (2 ≤ (name_matches a.presentations q).length →
      (set_target_pres_impl env ⟨some (a, true), tgt0⟩ (.inr q)).res =
        .error (.ambiguous q
          ((name_matches a.presentations q).map fun p => p.name))) := by
  have hlen0 : ¬ (a.presentations.length = 0) := by
    simpa [List.length_eq_zero] using hne
  refine ⟨?_, ?_, ?_⟩
  · intro p hp
    simp [name_matches, List.mem_filter, hp]
  · intro hF
    simp [set_target_pres_impl, get_app_impl, hlen0, hF]
  · intro h2
    have hne0 : ¬ ((name_matches a.presentations q).length = 0) := by omega
    have hgt : (name_matches a.presentations q).length > 1 := by omega
    simp [set_target_pres_impl, get_app_impl, hlen0, hne0, hgt]

theorem pin_by_name_case_insensitive_errors_witness :
    (∀ p ∈ appTwoOpen.presentations,
        p ∈ name_matches appTwoOpen.presentations "nope" ↔
          (p.name.toLower = "nope".toLower ∨
            p.fullName.toLower = "nope".toLower)) ∧
    (name_matches appTwoOpen.presentations "nope" = [] →
      (set_target_pres_impl envAttachHidden stTwoOpen (.inr "nope")).res =
        .error (.notFound "nope" (appTwoOpen.presentations.map fun p => p.name))) ∧
    (2 ≤ (name_matches appTwoOpen.presentations "nope").length →
      (set_target_pres_impl envAttachHidden stTwoOpen (.inr "nope")).res =
        .error (.ambiguous "nope"
          ((name_matches appTwoOpen.presentations "nope").map fun p => p.name))) :=
  pin_by_name_case_insensitive_errors envAttachHidden none appTwoOpen "nope"
    (by decide)

/-- Claim C9: pinning by a 1-based position that is out of range (less
than 1 or greater than the number of open presentations) raises the
error whose payload names the valid range: the offending index together
with the current presentation count (rendered as `1-{count}` in the
message). -/
theorem pin_by_index_out_of_range (env : ComEnv) (tgt0 : Option String)
    (a : AppObj) (idx : Int) (hne : a.presentations ≠ [])
    (hout : idx < 1 ∨ idx > (a.presentations.length : Int)) :
    (set_target_pres_impl env ⟨some (a, true), tgt0⟩ (.inl idx)).res =
      .error (.indexOutOfRange idx a.presentations.length) := by
  have hlen0 : ¬ (a.presentations.length = 0) := by
    simpa [List.length_eq_zero] using hne
  simp [set_target_pres_impl, get_app_impl, hlen0, hout]

theorem pin_by_index_out_of_range_witness :
    (set_target_pres_impl envAttachHidden stThreeOpen (.inl 5)).res =
      .error (.indexOutOfRange 5 3) :=
  pin_by_index_out_of_range envAttachHidden none appThreeOpen 5 (by decide)
    (Or.inr (by decide))
